import Mathlib

/-!
Verification of the Wombatlord/png-codec scanline-transform and chunk codec.

Byte buffers are shallowly embedded as `List Nat` (each element a byte value),
Python integers as `Int` where subtraction may go negative, and Python
exceptions as explicit error values.  Every definition is translated from the
repository source; definitions whose doc comment says `Follows the spec` are
reference models built from the specification text for comparison.
-/

namespace PngCodec

/-- Reads a byte from a buffer at a (nonnegative) index, as a Python int.
Callers guard index validity exactly where the source does. -/
def byteAt (l : List Nat) (i : Int) : Int := (l.getD i.toNat 0 : Nat)

/-! ## zlib.crc32

Model of the external `zlib.crc32(data, start)` collaborator: the standard
CRC-32 (polynomial `0xEDB88320`, reflected, with initial and final
complement), processing bytes left to right. -/

/-- One bit round of CRC-32: shift right, conditionally xor the polynomial. -/
def crcStep (c : Nat) : Nat :=
  if c % 2 = 1 then (c / 2) ^^^ 0xEDB88320 else c / 2

/-- Iterates `crcStep`. -/
def crcRounds : Nat → Nat → Nat
  | 0, c => c
  | n + 1, c => crcRounds n (crcStep c)

/-- Absorbs one byte: xor it into the register, then run 8 bit rounds. -/
def crcByteUpd (c b : Nat) : Nat := crcRounds 8 (c ^^^ b)

/-- Absorbs a byte list left to right. -/
def crcLoop : Nat → List Nat → Nat
  | c, [] => c
  | c, b :: rest => crcLoop (crcByteUpd c b) rest

/-- Model of `zlib.crc32(data, start)`. -/
def crc32 (data : List Nat) (start : Nat) : Nat :=
  crcLoop (start ^^^ 0xFFFFFFFF) data ^^^ 0xFFFFFFFF

/-! ## Python exceptions

Exception values raised by the embedded code.  `valueErrorUnknownFilter`
stands for the `ValueError("Unknown filter type: ...")` the source intends
for a bad filter-type byte. -/

inductive PyError where
  | attributeError
  | indexError
  | typeError
  | zeroDivisionError
  | valueErrorUnknownFilter
deriving DecidableEq, Repr

/-! ## Square (the NeighborWindow) and the five filter pairs

`Square` is the four-field neighbor window from `src/square.py` and
`src/png_decoder.py` (the two classes have identical fields).  The filter and
reconstruction functions below appear identically in `src/filters.py` and
`src/png_decoder.py` (class `Filters`), so they are embedded once. -/

structure Square where
  x : Int
  a : Int
  b : Int
  c : Int
deriving DecidableEq, Repr

namespace Filters

/-- `Filters.paeth_predictor` from `src/filters.py` lines 55-67. -/
def paeth_predictor (a b c : Int) : Int :=
  let p := a + b - c
  let pa := |p - a|
  let pb := |p - b|
  let pc := |p - c|
  if pa ≤ pb ∧ pa ≤ pc then a else if pb ≤ pc then b else c

/-- `Filters.none_filter`. -/
def none_filter (s : Square) : Int := s.x

/-- `Filters.none_recon`. -/
def none_recon (s : Square) : Int := s.x

/-- `Filters.sub_filter`. -/
def sub_filter (s : Square) : Int := s.x - s.a

/-- `Filters.sub_recon`. -/
def sub_recon (s : Square) : Int := s.x + s.a

/-- `Filters.up_filter`. -/
def up_filter (s : Square) : Int := s.x - s.b

/-- `Filters.up_recon`. -/
def up_recon (s : Square) : Int := s.x + s.b

/-- `Filters.average_filter`; `//` on nonnegative byte values is `Int` division
with rounding toward zero, which agrees with Python floor division here. -/
def average_filter (s : Square) : Int := s.x - (s.a + s.b) / 2

/-- `Filters.average_recon`. -/
def average_recon (s : Square) : Int := s.x + (s.a + s.b) / 2

/-- `Filters.paeth_filter`. -/
def paeth_filter (s : Square) : Int := s.x - paeth_predictor s.a s.b s.c

/-- `Filters.paeth_recon`. -/
def paeth_recon (s : Square) : Int := s.x + paeth_predictor s.a s.b s.c

/-- `Filters.select_filter_func`: Python list indexing; an out-of-range
filter byte raises IndexError, modelled by `none`. -/
def select_filter_func (filter_byte : Nat) : Option (Square → Int) :=
  [none_filter, sub_filter, up_filter, average_filter, paeth_filter].get? filter_byte

/-- `Filters.select_reconstruction_func`: Python list indexing; an
out-of-range filter byte raises IndexError, modelled by `none`. -/
def select_reconstruction_func (filter_byte : Nat) : Option (Square → Int) :=
  [none_recon, sub_recon, up_recon, average_recon, paeth_recon].get? filter_byte

end Filters

/-- `I8` from `src/filters.py` lines 3-8 (duplicated verbatim in
`src/png_encoder.py` lines 8-13): `val & 0xFF` is `val % 256` on Python
ints (nonnegative result), and `i & 0b01111111` on the nonnegative masked
value is `i % 128`. -/
def I8 (val : Int) : Int :=
  let i := val % 256
  if i > 127 then (i % 128) - 128 else i

namespace SquareMod

/-- `Square.filtered_data_offsets` from `src/square.py`: the scan (column)
and line (row) offsets implied by the length of the filtered data produced
so far.  Both are nonnegative, computed with Python floor division. -/
def filtered_data_offsets (filtered_data : List Nat) (stride : Nat) : Int × Int :=
  let filter_stride : Int := (stride : Int) + 1
  (max ((filtered_data.length : Int) % filter_stride - 1) 0,
   (filtered_data.length : Int) / filter_stride)

/-- `Square.next_filter_square` from `src/square.py` lines 60-88: samples
`x,a,b,c` from the raw source buffer.  Note the source computes the `b` and
`c` line offsets as `line_offset - scan_incr` where `scan_incr =
bytes_per_pixel`. -/
def next_filter_square (source_data filtered_data : List Nat)
    (stride bytes_per_pixel : Nat) : Option Square :=
  let source_byte_index : Int → Int → Int := fun scan line => line * stride + scan
  let so := filtered_data_offsets filtered_data stride
  let scan_offset := so.1
  let line_offset := so.2
  let scan_incr : Int := bytes_per_pixel
  if source_byte_index scan_offset line_offset ≥ (source_data.length : Int) then
    none
  else
    let x := byteAt source_data (source_byte_index scan_offset line_offset)
    let a := if scan_offset - scan_incr ≥ 0 then
        byteAt source_data (source_byte_index (scan_offset - scan_incr) line_offset) else 0
    let b := if line_offset - scan_incr ≥ 0 then
        byteAt source_data (source_byte_index scan_offset (line_offset - scan_incr)) else 0
    let c := if scan_offset - scan_incr ≥ 0 ∧ line_offset - scan_incr ≥ 0 then
        byteAt source_data (source_byte_index (scan_offset - scan_incr) (line_offset - scan_incr))
      else 0
    some ⟨x, a, b, c⟩

end SquareMod

namespace Decoder

/-- `Square.filter_next_square` from `src/png_decoder.py` lines 129-160:
the decode-module variant used by `Reconstructor.filter`; all neighbor
offsets use distance 1 (`scan_offset - 1`, `line_offset - 1`). -/
def filter_next_square (source_data filtered_data : List Nat)
    (stride : Nat) : Option Square :=
  let filter_stride : Int := (stride : Int) + 1
  let source_byte_index : Int → Int → Int := fun scan line => line * stride + scan
  let scan_offset : Int := max ((filtered_data.length : Int) % filter_stride - 1) 0
  let line_offset : Int := (filtered_data.length : Int) / filter_stride
  if source_byte_index scan_offset line_offset ≥ (source_data.length : Int) then
    none
  else
    let x := byteAt source_data (source_byte_index scan_offset line_offset)
    let a := if scan_offset - 1 ≥ 0 then
        byteAt source_data (source_byte_index (scan_offset - 1) line_offset) else 0
    let b := if line_offset - 1 ≥ 0 then
        byteAt source_data (source_byte_index scan_offset (line_offset - 1)) else 0
    let c := if scan_offset - 1 ≥ 0 ∧ line_offset - 1 ≥ 0 then
        byteAt source_data (source_byte_index (scan_offset - 1) (line_offset - 1)) else 0
    some ⟨x, a, b, c⟩

/-- `Square.recon_next_square` from `src/png_decoder.py` lines 87-127
(identical to `Square.next_recon_square` in `src/square.py`): `x` is read
from the filtered stream, `a,b,c` from the already-reconstructed output.
The source assumes `stride > 0` (Python `%`/`//` by zero raise). -/
def recon_next_square (filter_data recon_data : List Nat)
    (stride bytes_per_pixel : Nat) : Option Square :=
  let scan_offset : Int := (recon_data.length : Int) % (stride : Int)
  let line_offset : Int := (recon_data.length : Int) / (stride : Int)
  let scan_incr : Int := bytes_per_pixel
  let filter_stride : Int := (stride : Int) + 1
  let filter_byte_index : Int → Int → Int := fun scan line => line * filter_stride + 1 + scan
  let recon_byte_index : Int → Int → Int := fun scan line => line * stride + scan
  if filter_byte_index scan_offset line_offset ≥ (filter_data.length : Int) then
    none
  else
    let x := byteAt filter_data (filter_byte_index scan_offset line_offset)
    let a := if scan_offset - scan_incr ≥ 0 then
        byteAt recon_data (recon_byte_index (scan_offset - scan_incr) line_offset) else 0
    let b := if line_offset - 1 ≥ 0 then
        byteAt recon_data (recon_byte_index scan_offset (line_offset - 1)) else 0
    let c := if scan_offset - scan_incr ≥ 0 ∧ line_offset - 1 ≥ 0 then
        byteAt recon_data (recon_byte_index (scan_offset - scan_incr) (line_offset - 1)) else 0
    some ⟨x, a, b, c⟩

/-- One `next()` on the generator `(filter_bytes[i % len(filter_bytes)] for i
in count())` inside `Reconstructor.filter`; an empty list raises
ZeroDivisionError at the modulus. -/
def nextFilterByte (filter_bytes : List Nat) (i : Nat) : Except PyError Nat :=
  if filter_bytes.length = 0 then .error .zeroDivisionError
  else .ok (filter_bytes.getD (i % filter_bytes.length) 0)

/-- While-loop of `Reconstructor.filter` (`src/png_decoder.py` lines
285-297).  The cursor advances one source byte per iteration, so fuel
`source_data.length` reproduces the loop exactly; `i` counts generator
reads already performed. -/
def filterGo (source_data filter_bytes : List Nat) (stride : Nat) :
    Nat → List Nat → Nat → Nat → Except PyError (List Nat)
  | 0, filter_data, _, _ => .ok filter_data
  | fuel + 1, filter_data, filter_byte, i =>
    match filter_next_square source_data filter_data stride with
    | none => .ok filter_data
    | some sq =>
      match Filters.select_filter_func filter_byte with
      | none => .error .indexError
      | some filter_func =>
        let filter_data := filter_data ++ [((filter_func sq) % 256).toNat]
        if filter_data.length % (stride + 1) = 0 then
          match nextFilterByte filter_bytes i with
          | .error e => .error e
          | .ok fb =>
            filterGo source_data filter_bytes stride fuel (filter_data ++ [fb]) fb (i + 1)
        else
          filterGo source_data filter_bytes stride fuel filter_data filter_byte i

/-- `Reconstructor.filter` (static) from `src/png_decoder.py` lines 285-297:
forward-filters a raw buffer, cycling through `filter_bytes` row by row.
Appended bytes are masked with `& 0xFF` (`% 256` on the Python int). -/
def Reconstructor.filter (source_data filter_bytes : List Nat) (stride : Nat) :
    Except PyError (List Nat) :=
  match nextFilterByte filter_bytes 0 with
  | .error e => .error e
  | .ok fb => filterGo source_data filter_bytes stride source_data.length [fb] fb 1

/-- While-loop of `Reconstructor.reconstruct` (`src/png_decoder.py` lines
299-311).  One reconstructed byte is appended per iteration and the loop
stops before `recon_data` reaches `filter_data.length`, so that fuel
reproduces the loop; `reconstruction_func` carries the per-row function
selected at the last row boundary (always assigned on the first iteration
since `0 % stride = 0`; the source assumes `stride > 0`). -/
def reconGo (filter_data : List Nat) (stride bytes_per_pixel : Nat) :
    Nat → List Nat → (Square → Int) → Except PyError (List Nat)
  | 0, recon_data, _ => .ok recon_data
  | fuel + 1, recon_data, reconstruction_func =>
    match recon_next_square filter_data recon_data stride bytes_per_pixel with
    | none => .ok recon_data
    | some sq =>
      if recon_data.length % stride = 0 then
        let filter_byte_index := (recon_data.length / stride) * (stride + 1)
        let filter_byte := filter_data.getD filter_byte_index 0
        match Filters.select_reconstruction_func filter_byte with
        | none => .error .indexError
        | some rf =>
          reconGo filter_data stride bytes_per_pixel fuel
            (recon_data ++ [((rf sq) % 256).toNat]) rf
      else
        reconGo filter_data stride bytes_per_pixel fuel
          (recon_data ++ [((reconstruction_func sq) % 256).toNat]) reconstruction_func

/-- `Reconstructor.reconstruct` (static) from `src/png_decoder.py` lines
299-311; an out-of-range filter-type byte surfaces as the IndexError raised
by `select_reconstruction_func`. -/
def Reconstructor.reconstruct (filter_data : List Nat) (stride bytes_per_pixel : Nat) :
    Except PyError (List Nat) :=
  reconGo filter_data stride bytes_per_pixel filter_data.length [] Filters.none_recon

/-- State set up by `Reconstructor.__init__` (`src/png_decoder.py` lines
243-247): exactly these four attributes and nothing else. -/
structure Reconstructor where
  bytes_per_pixel : Nat
  height : Nat
  stride : Nat
  filter_bytes_index : List Nat
deriving DecidableEq, Repr

/-- Per-scanline loop of `Reconstructor.reconstruct_buf` (`src/png_decoder.py`
lines 249-283).  The per-byte loop body begins by evaluating
`self.reconstruction_funcs`, an attribute `__init__` never assigns, so Python
raises AttributeError at the first byte of every nonempty scanline (were that
lookup to succeed, the next line subscripts the function
`Filters.select_reconstruction_func` with `[...]`, a TypeError); an empty
read makes `filt_line[0]` raise IndexError.  `pos` is the buffer cursor. -/
def reconBufGo (self : Reconstructor) (buf : List Nat) :
    Nat → Nat → List Nat → Except PyError (List Nat)
  | 0, _, reconstructed => .ok reconstructed
  | h + 1, pos, reconstructed =>
    let filt_line := (buf.drop pos).take (self.stride + 1)
    match filt_line with
    | [] => .error .indexError
    | _filter_byte :: filt_scan =>
      match filt_scan with
      | [] => reconBufGo self buf h (pos + filt_line.length) reconstructed
      | _ :: _ => .error .attributeError

/-- `Reconstructor.reconstruct_buf` from `src/png_decoder.py` lines 249-283. -/
def Reconstructor.reconstruct_buf (self : Reconstructor) (buf : List Nat) :
    Except PyError (List Nat) :=
  reconBufGo self buf self.height 0 []

end Decoder

/-! ## Chunk container (`src/chunks.py`, duplicated in `src/png_decoder.py`) -/

/-- Big-endian integer of a byte list (`struct.unpack` with a `>I` field). -/
def be32 (l : List Nat) : Nat := l.foldl (fun acc b => acc * 256 + b) 0

/-- Big-endian 4-byte encoding (`struct.pack` with a `>I` or, for values
below `2^31`, `>i` field). -/
def be32bytes (n : Nat) : List Nat :=
  [n / 16777216 % 256, n / 65536 % 256, n / 256 % 256, n % 256]

/-- `Chunk` from `src/chunks.py` lines 42-50. -/
structure Chunk where
  length : Nat
  chunk_type : List Nat
  chunk_data : List Nat
  crc : Nat
deriving DecidableEq, Repr

/-- `Chunk.combine_chunks` from `src/chunks.py` lines 60-65: concatenates
payloads, sums lengths, and recomputes the crc over the receiver's type tag
(`struct.pack(">4s", ...)` is the identity on a 4-byte tag) followed by the
new payload.  The source mutates the receiver; this returns its new state. -/
def Chunk.combine_chunks (a b : Chunk) : Chunk :=
  let chunk_data := a.chunk_data ++ b.chunk_data
  { a with
    chunk_data := chunk_data
    length := a.length + b.length
    crc := crc32 chunk_data (crc32 a.chunk_type 0) }

/-- `Chunk.calc_crc` from `src/chunks.py` lines 67-71. -/
def Chunk.calc_crc (chunk_data chunk_type : List Nat) : Nat :=
  crc32 chunk_data (crc32 chunk_type 0)

/-- `Chunk.__bytes__` from `src/chunks.py` lines 52-57: length, tag, payload,
crc (lengths in this codebase stay far below `2^31`, where the source's `>i`
and `>I` packings agree). -/
def Chunk.bytes (c : Chunk) : List Nat :=
  be32bytes c.length ++ c.chunk_type ++ c.chunk_data ++ be32bytes c.crc

/-- `IHDRData` from `src/chunks.py` (identical in `src/png_decoder.py`). -/
structure IHDRData where
  width : Nat
  height : Nat
  bit_depth : Nat
  colour_type : Nat
  compression_method : Nat
  filter_method : Nat
  interlace_method : Nat
deriving DecidableEq, Repr

/-- Fixed byte constants: PNG signature and the four-byte chunk type tags. -/
def PNG_SIGNATURE : List Nat := [0x89, 0x50, 0x4E, 0x47, 0x0D, 0x0A, 0x1A, 0x0A]

/-- ASCII bytes of the tag `IHDR`. -/
def IHDR_TYPE : List Nat := [73, 72, 68, 82]

/-- ASCII bytes of the tag `IDAT`. -/
def IDAT_TYPE : List Nat := [73, 68, 65, 84]

/-- ASCII bytes of the tag `IEND`. -/
def IEND_TYPE : List Nat := [73, 69, 78, 68]

namespace Decoder

/-- Errors raised by `PNGDecoder` during `__init__`; each variant carries
exactly the values its source message interpolates.  `checksumFailed` is the
`ValueError` of `_validate_crc`, whose f-string names only the chunk type
and the chunk length. -/
inductive DecodeError where
  | notAPng
  | structError
  | invalidCompression (got : Nat)
  | invalidFilterMethod (got : Nat)
  | invalidColourType (got : Nat)
  | invalidBitDepth (got : Nat)
  | invalidInterlace (got : Nat)
  | checksumFailed (chunk_type : List Nat) (chunk_length : Nat)
  | chunkOverrun
  | noIENDFound
  | typeError
  | indexError
deriving DecidableEq, Repr

/-- `PNGDecoder._validate_crc` from `src/png_decoder.py` lines 482-491:
computes `zlib.crc32(chunk_data, zlib.crc32(chunk_type))` and raises on
mismatch; on success it returns the expected crc unchanged. -/
def validate_crc (chunk_length : Nat) (chunk_type chunk_data : List Nat)
    (expected_crc : Nat) : Except DecodeError Nat :=
  let actual_crc := crc32 chunk_data (crc32 chunk_type 0)
  if actual_crc ≠ expected_crc then .error (.checksumFailed chunk_type chunk_length)
  else .ok expected_crc

/-- Object store for `_combine_IDAT_data`: Python mutates chunk objects in
place and `chunks.remove(chunk)` removes by object identity (no `__eq__` is
defined), so chunks are tracked by their original index: `store` holds each
object's current state, `live` the indices still in the `chunks` list, and
`prev` the `previous_chunk` variable.  A combine mutates `prev`'s object in
the store even when that object was already removed from `live`. -/
def combine_IDAT_go (store : List Chunk) (live : List Nat) (prev : Option Nat) :
    List Nat → List Chunk × List Nat
  | [] => (store, live)
  | cid :: rest =>
    match prev with
    | none => combine_IDAT_go store live (some cid) rest
    | some p =>
      let pc := store.getD p (Chunk.mk 0 [] [] 0)
      let cc := store.getD cid (Chunk.mk 0 [] [] 0)
      combine_IDAT_go (store.set p (pc.combine_chunks cc)) (live.erase cid) (some cid) rest

/-- `PNGDecoder._combine_IDAT_data` from `src/png_decoder.py` lines 493-499:
iterates over a snapshot of `chunks[idat_chunk_idx:-1]`, combining each
visited chunk into `previous_chunk` and removing it, then reassigning
`previous_chunk` to the just-removed chunk. -/
def combine_IDAT_data (chunks : List Chunk) (idat_chunk_idx : Nat) : List Chunk :=
  let ids := ((List.range chunks.length).drop idat_chunk_idx).dropLast
  let res := combine_IDAT_go chunks (List.range chunks.length) none ids
  res.2.map (fun i => res.1.getD i (Chunk.mk 0 [] [] 0))

/-- `IHDR` NamedTuple from `src/png_decoder.py` lines 11-22 (decode side:
`chunk_data` holds the raw 13 payload bytes). -/
structure IHDR where
  length : Nat
  chunk_type : List Nat
  chunk_data : List Nat
deriving DecidableEq, Repr

/-- `IHDRData.from_bytes` (`struct.unpack(">IIBBBBB", data)`): fails with
`struct.error` unless exactly 13 bytes are supplied. -/
def IHDRData.from_bytes (data : List Nat) : Except DecodeError IHDRData :=
  if data.length = 13 then
    .ok ⟨be32 (data.take 4), be32 ((data.drop 4).take 4),
      data.getD 8 0, data.getD 9 0, data.getD 10 0, data.getD 11 0, data.getD 12 0⟩
  else .error .structError

/-- `PNGDecoder._read_from_file` (`src/png_decoder.py` lines 350-369):
checks the 8 signature bytes and buffers the rest of the datastream. -/
def read_from_file (data : List Nat) : Except DecodeError (List Nat) :=
  if data.take 8 = PNG_SIGNATURE then .ok (data.drop 8) else .error .notAPng

/-- `PNGDecoder._extract_IHDR` (`src/png_decoder.py` lines 371-388): reads
the first 21 buffered bytes at fixed offsets, with no CRC involvement. -/
def extract_IHDR (buffer : List Nat) : IHDR :=
  let ihdr_bytes := buffer.take 21
  { length := be32 (ihdr_bytes.take 4)
    chunk_type := (ihdr_bytes.drop 4).take 4
    chunk_data := ihdr_bytes.drop 8 }

/-- `PNGDecoder._validate_IHDR` (`src/png_decoder.py` lines 390-426): the
five support checks in source order. -/
def validate_IHDR (h : IHDRData) : Except DecodeError Unit :=
  if h.compression_method ≠ 0 then .error (.invalidCompression h.compression_method)
  else if h.filter_method ≠ 0 then .error (.invalidFilterMethod h.filter_method)
  else if h.colour_type ≠ 6 then .error (.invalidColourType h.colour_type)
  else if h.bit_depth ≠ 8 then .error (.invalidBitDepth h.bit_depth)
  else if h.interlace_method ≠ 0 then .error (.invalidInterlace h.interlace_method)
  else .ok ()

/-- While-loop of `PNGDecoder._chunker` (`src/png_decoder.py` lines 433-480):
reads 8 header bytes (a short read raises `struct.error`), checks the
declared length against the buffer, reads payload and stored crc, validates
the crc, tracks the first IDAT index (`not self.idat_chunk_idx` is true for
`None` and for `0`), and on IEND runs the IDAT merge (slicing
`chunks[None:-1]` would raise TypeError if no IDAT chunk was seen).  Each
iteration consumes at least 12 bytes, so fuel `data.length + 1` reproduces
the loop. -/
def chunkerGo (data : List Nat) :
    Nat → Nat → List Chunk → Option Nat → Nat → Except DecodeError (List Chunk × Option Nat)
  | 0, _, _, _, _ => .error .noIENDFound
  | fuel + 1, pos, chunks, idat_chunk_idx, chunk_idx =>
    if pos > data.length then .error .noIENDFound
    else
      let hdr := (data.drop pos).take 8
      if hdr.length ≠ 8 then .error .structError
      else
        let chunk_length := be32 (hdr.take 4)
        let chunk_type := hdr.drop 4
        let pos := pos + 8
        if chunk_length + 4 + pos > data.length then .error .chunkOverrun
        else
          let chunk_data := (data.drop pos).take chunk_length
          let pos := pos + chunk_length
          let expected_crc := be32 ((data.drop pos).take 4)
          let pos := pos + 4
          match validate_crc chunk_length chunk_type chunk_data expected_crc with
          | .error e => .error e
          | .ok chunk_crc =>
            let idat_chunk_idx :=
              if chunk_type = IDAT_TYPE ∧ idat_chunk_idx.getD 0 = 0 then some chunk_idx
              else idat_chunk_idx
            let chunks := chunks ++ [⟨chunk_length, chunk_type, chunk_data, chunk_crc⟩]
            if chunk_type = IEND_TYPE then
              match idat_chunk_idx with
              | none => .error .typeError
              | some k => .ok (combine_IDAT_data chunks k, some k)
            else chunkerGo data fuel pos chunks idat_chunk_idx (chunk_idx + 1)

/-- `PNGDecoder._chunker` entry point. -/
def chunker (buffer : List Nat) : Except DecodeError (List Chunk × Option Nat) :=
  chunkerGo buffer (buffer.length + 1) 0 [] none 0

/-- `PNGDecoder.__init__` from `src/png_decoder.py` lines 319-331, in source
order: `_read_from_file` (signature check), `_extract_IHDR` then
`_validate_IHDR` (header constraints, from fixed byte offsets, before any
chunk framing or CRC processing), then `_chunker` (framing, per-chunk CRC
validation, IDAT merge).  After the chunker, line 327 constructs the
`Reconstructor` (plain attribute assignments, no failure and no pixel
work), and line 330 evaluates `self.idat = self.chunks[2]`, which raises
IndexError when fewer than three chunks survive the IDAT merge. -/
def PNGDecoder.init (data : List Nat) : Except DecodeError (List Chunk × Option Nat) :=
  match read_from_file data with
  | .error e => .error e
  | .ok buffer =>
    let ihdr := extract_IHDR buffer
    match IHDRData.from_bytes ihdr.chunk_data with
    | .error e => .error e
    | .ok ihdr_data =>
      match validate_IHDR ihdr_data with
      | .error e => .error e
      | .ok _ =>
        match chunker buffer with
        | .error e => .error e
        | .ok (chunks, idat_chunk_idx) =>
          if 2 < chunks.length then .ok (chunks, idat_chunk_idx)
          else .error .indexError

end Decoder

/-! ## Encoder (`src/png_encoder.py`) -/

namespace Encoder

/-- Recursion core of `chunksOf`: structural on fuel, which callers set to
the list length (each step consumes at least one element). -/
def chunksOfGo {α : Type} (n : Nat) : Nat → List α → List (List α)
  | _, [] => []
  | 0, _ :: _ => []
  | fuel + 1, x :: xs => (x :: xs.take (n - 1)) :: chunksOfGo n fuel (xs.drop (n - 1))

/-- Splits a list into consecutive chunks of `n` elements (last chunk may be
short), matching a Python `for i in range(0, len(l), n)` slicing loop for
`n > 0`. -/
def chunksOf {α : Type} (n : Nat) (l : List α) : List (List α) :=
  chunksOfGo n l.length l

/-- `gen_lines` from `src/png_encoder.py` lines 15-25: slices the raw pixel
list (4-byte tuples) into rows of `width` pixels and flattens each row to
its `stride` bytes.  The generator reuses one `bytearray` for every yield;
that aliasing is modelled in `gen_line_pairs`. -/
def gen_lines (width : Nat) (raw_source : List (List Nat)) : List (List Nat) :=
  (chunksOf width raw_source).map List.flatten

/-- `gen_line_pairs` from `src/png_encoder.py` lines 27-33.  The source
intends to pair each row with its predecessor (seeding a zero row), but
`gen_lines` yields the same cleared-and-refilled `bytearray` object each
iteration, so from the second pair onward both components alias the current
row; only the first pair keeps the independent zero row. -/
def gen_line_pairs (width stride : Nat) (raw_source : List (List Nat)) :
    List (List Nat × List Nat) :=
  (gen_lines width raw_source).mapIdx (fun r line =>
    (if r = 0 then List.replicate stride 0 else line, line))

/-- Inner while-loop of `consume_lines`: appends one filtered byte per
iteration until the source cursor passes the end of `scan_src`; fuel
`scan_src.length` reproduces the loop. -/
def consumeGo (scan_src : List Nat) (stride : Nat) (filter_func : Square → Int) :
    Nat → List Nat → List Nat
  | 0, filtered_data => filtered_data
  | fuel + 1, filtered_data =>
    match SquareMod.next_filter_square scan_src filtered_data stride 4 with
    | none => filtered_data
    | some sq =>
      consumeGo scan_src stride filter_func fuel
        (filtered_data ++ [((filter_func sq) % 256).toNat])

/-- `consume_lines` from `src/png_encoder.py` lines 34-45: for each line
pair, filters the current row against a two-row window `prev + current`,
seeding `filtered_data` with a zero pseudo-row (`b"\x00"` plus `stride`
zeros) and the row's filter tag, and yields the trailing
`filtered_data[stride+1:]` (tag plus `stride` filtered bytes). -/
def consume_lines (width stride : Nat) (raw_source : List (List Nat))
    (filter_func : Square → Int) (filter_byte : Nat) : List (List Nat) :=
  (gen_line_pairs width stride raw_source).map (fun pc =>
    let scan_src := pc.1 ++ pc.2
    let filtered_data := List.replicate (stride + 1) 0 ++ [filter_byte]
    let fd := consumeGo scan_src stride filter_func scan_src.length filtered_data
    fd.drop (stride + 1))

/-- `PNGEncoder.minumum_sum_of_absolute_differences` from
`src/png_encoder.py` lines 139-151 (duplicated in `src/filters.py`): slices
the filtered stream into `stride + 1` blocks and sums `abs(I8(byte))` over
each block, skipping index 0 (the filter tag). -/
def minumum_sum_of_absolute_differences (filtered_data : List Nat) (stride : Nat) :
    List Nat :=
  (chunksOf (stride + 1) filtered_data).map
    (fun line => ((line.drop 1).map (fun b => (I8 b).natAbs)).sum)

/-- `PNGEncoder.calculate_filter_score` from `src/png_encoder.py` lines
133-137. -/
def calculate_filter_score (width : Nat) (raw_source : List (List Nat))
    (filter_func : Square → Int) (filter_byte : Nat) : List Nat :=
  let stride := width * 4
  minumum_sum_of_absolute_differences
    (List.flatten (consume_lines width stride raw_source filter_func filter_byte)) stride

/-- Python `zip` over the five per-filter score lists (truncates at the
shortest, as `zip` does). -/
def zip5 : List Nat → List Nat → List Nat → List Nat → List Nat → List (List Nat)
  | a :: as, b :: bs, c :: cs, d :: ds, e :: es => [a, b, c, d, e] :: zip5 as bs cs ds es
  | _, _, _, _, _ => []

/-- `PNGEncoder.filter_scores` from `src/png_encoder.py` lines 122-132. -/
def filter_scores (width : Nat) (raw_source : List (List Nat)) : List (List Nat) :=
  zip5
    (calculate_filter_score width raw_source Filters.none_filter 0)
    (calculate_filter_score width raw_source Filters.sub_filter 1)
    (calculate_filter_score width raw_source Filters.up_filter 2)
    (calculate_filter_score width raw_source Filters.average_filter 3)
    (calculate_filter_score width raw_source Filters.paeth_filter 4)

/-- `PNGEncoder.best_filters` from `src/png_encoder.py` lines 114-120:
`score.index(min(score))` — the first index achieving the minimum (rows are
nonempty in every use, so the `min?` default is never taken). -/
def best_filters (width : Nat) (raw_source : List (List Nat)) : List Nat :=
  (filter_scores width raw_source).map (fun score => score.indexOf (score.min?.getD 0))

/-- Per-index loop of `compress_to_idat_chunks` over
`range(0, len(arr), 30)`: when the whole payload exceeds 30 bytes every
chunk is declared with `length=30` (even a short final slice); otherwise a
single chunk is built from `arr[i:-1]`, which omits the final byte, and the
loop breaks. -/
def idatGo (arr : List Nat) : List Nat → List Chunk
  | [] => []
  | i :: rest =>
    if arr.length > 30 then
      { length := 30
        chunk_type := IDAT_TYPE
        chunk_data := (arr.drop i).take 30
        crc := Chunk.calc_crc ((arr.drop i).take 30) IDAT_TYPE } :: idatGo arr rest
    else
      [{ length := ((arr.drop i).dropLast).length
         chunk_type := IDAT_TYPE
         chunk_data := (arr.drop i).dropLast
         crc := Chunk.calc_crc ((arr.drop i).dropLast) IDAT_TYPE }]

/-- `PNGEncoder.compress_to_idat_chunks` from `src/png_encoder.py` lines
92-106, applied to the output `arr` of the external `zlib.compress`
collaborator (the source calls it on `filtered_data` first; entropy coding
is outside the core).  `max_size` is the hard-coded literal 30. -/
def compress_to_idat_chunks (arr : List Nat) : List Chunk :=
  idatGo arr ((List.range ((arr.length + 29) / 30)).map (fun k => k * 30))

/-- `IHDR` NamedTuple as built by `PNGEncoder.prepare_ihdr` (encode side:
`chunk_data` holds the `IHDRData` tuple itself, not bytes). -/
structure EncIHDR where
  length : Nat
  chunk_type : List Nat
  chunk_data : IHDRData
deriving DecidableEq, Repr

/-- `PNGEncoder.prepare_ihdr` from `src/png_encoder.py` lines 66-86. -/
def prepare_ihdr (width height : Nat) : EncIHDR :=
  { length := 13
    chunk_type := IHDR_TYPE
    chunk_data := ⟨width, height, 8, 6, 0, 0, 0⟩ }

/-- `PNGEncoder.iend_chunk` from `src/png_encoder.py` lines 108-109. -/
def iend_chunk : Chunk :=
  { length := 0
    chunk_type := IEND_TYPE
    chunk_data := []
    crc := Chunk.calc_crc [] IEND_TYPE }

/-- The heterogeneous Python list built by `final_datastream`: the IHDR
NamedTuple, the list returned by `compress_to_idat_chunks`, and the IEND
chunk. -/
inductive PngEncObj where
  | ihdrObj (h : EncIHDR)
  | chunkList (cs : List Chunk)
  | chunkObj (c : Chunk)
deriving DecidableEq, Repr

/-- Python `bytes(obj)` as applied by `final_datastream`: a `Chunk` has
`__bytes__`; the `IHDR` NamedTuple does not (and is not an iterable of
ints — its `chunk_type` field is a bytes object), so `bytes()` raises
TypeError, as it does on a Python list of `Chunk` objects. -/
def pyBytes : PngEncObj → Except PyError (List Nat)
  | .chunkObj c => .ok (Chunk.bytes c)
  | .ihdrObj _ => .error .typeError
  | .chunkList _ => .error .typeError

/-- The `d += bytes(chunk)` loop of `final_datastream`. -/
def bytesJoin : List PngEncObj → Except PyError (List Nat)
  | [] => .ok []
  | o :: rest =>
    match pyBytes o with
    | .error e => .error e
    | .ok b =>
      match bytesJoin rest with
      | .error e => .error e
      | .ok bs => .ok (b ++ bs)

/-- `PNGEncoder.final_datastream` from `src/png_encoder.py` lines 111-120,
with `deflated` the external `zlib.compress` output for the filtered data.
The source appends the IDAT chunk list as a single element (`chunks.append`
of a list) and never prepends the PNG signature. -/
def final_datastream (width height : Nat) (deflated : List Nat) :
    Except PyError (List Nat) :=
  bytesJoin [.ihdrObj (prepare_ihdr width height),
    .chunkList (compress_to_idat_chunks deflated),
    .chunkObj iend_chunk]

end Encoder

/-! ## Reference models written from the specification text -/

/-- Follows the spec (section 4.5 and the NeighborWindow definition): one
row forward-filtered against the true previous raw row, with `a` the byte 4
positions left in the same row, `b` directly above in the previous row, `c`
above-left; missing neighbors are 0.  `prev` is the all-zero row for row 0. -/
def specRowCandidate (prev row : List Nat) (filter_func : Square → Int) : List Nat :=
  (List.range row.length).map (fun j =>
    let x : Int := row.getD j 0
    let a : Int := if 4 ≤ j then row.getD (j - 4) 0 else 0
    let b : Int := prev.getD j 0
    let c : Int := if 4 ≤ j then prev.getD (j - 4) 0 else 0
    ((filter_func ⟨x, a, b, c⟩) % 256).toNat)

/-- Follows the spec (section 4.5): for each row independently, score all
five filter candidates (computed against the true previous raw row) by the
sum of `abs(I8(byte))` over the filtered bytes, and select the first filter
index achieving the minimum in the order None, Sub, Up, Average, Paeth. -/
def specBestFilters (width : Nat) (raw_source : List (List Nat)) : List Nat :=
  let stride := width * 4
  let rows := (Encoder.chunksOf width raw_source).map List.flatten
  (List.range rows.length).map (fun r =>
    let row := rows.getD r []
    let prev := if r = 0 then List.replicate stride 0 else rows.getD (r - 1) []
    let score := fun (ff : Square → Int) =>
      ((specRowCandidate prev row ff).map (fun b => (I8 b).natAbs)).sum
    let scores := [score Filters.none_filter, score Filters.sub_filter,
      score Filters.up_filter, score Filters.average_filter, score Filters.paeth_filter]
    scores.indexOf (scores.min?.getD 0))

/-! ## Helper lemmas: CRC-32 distinguishes single-byte changes

The CRC register stays below `2^32`; each bit round is injective on that
range (the polynomial's top bit decides which branch produced a value), so
absorbing a byte is injective both in the register and in the byte, and two
payloads differing in one byte yield different checksums. -/

theorem crcStep_lt {c : Nat} (h : c < 2 ^ 32) : crcStep c < 2 ^ 32 := by
  unfold crcStep
  split
  · exact Nat.xor_lt_two_pow (by omega) (by norm_num)
  · omega

theorem xor_left_cancel {a b c : Nat} (h : a ^^^ b = a ^^^ c) : b = c := by
  have h2 := congrArg (fun x => a ^^^ x) h
  simpa [← Nat.xor_assoc, Nat.xor_self, Nat.zero_xor] using h2

theorem xor_right_cancel {a b m : Nat} (h : a ^^^ m = b ^^^ m) : a = b := by
  have h2 := congrArg (fun x => x ^^^ m) h
  simpa [Nat.xor_assoc, Nat.xor_self, Nat.xor_zero] using h2

theorem div2_xor_poly_ne_div2 {a b : Nat} (ha : a < 2 ^ 32) (hb : b < 2 ^ 32) :
    (a / 2) ^^^ 0xEDB88320 ≠ b / 2 := by
  intro h
  have h1 : a / 2 < 2 ^ 31 := by omega
  have h2 : b / 2 < 2 ^ 31 := by omega
  have h3 := congrArg (fun x => Nat.testBit x 31) h
  simp only [Nat.testBit_xor, Nat.testBit_lt_two_pow h1, Nat.testBit_lt_two_pow h2] at h3
  exact absurd h3 (by decide)

theorem crcStep_inj {a b : Nat} (ha : a < 2 ^ 32) (hb : b < 2 ^ 32)
    (h : crcStep a = crcStep b) : a = b := by
  unfold crcStep at h
  split at h <;> split at h
  · have := xor_right_cancel h
    omega
  · exact absurd h (div2_xor_poly_ne_div2 ha hb)
  · exact absurd h.symm (div2_xor_poly_ne_div2 hb ha)
  · omega

theorem crcRounds_lt : ∀ (n : Nat) {c : Nat}, c < 2 ^ 32 → crcRounds n c < 2 ^ 32
  | 0, _, h => h
  | n + 1, _, h => crcRounds_lt n (crcStep_lt h)

theorem crcRounds_inj :
    ∀ (n : Nat) {a b : Nat}, a < 2 ^ 32 → b < 2 ^ 32 →
      crcRounds n a = crcRounds n b → a = b
  | 0, _, _, _, _, h => h
  | n + 1, _, _, ha, hb, h =>
    crcStep_inj ha hb (crcRounds_inj n (crcStep_lt ha) (crcStep_lt hb) h)

theorem crcByteUpd_lt {c b : Nat} (hc : c < 2 ^ 32) (hb : b < 2 ^ 32) :
    crcByteUpd c b < 2 ^ 32 :=
  crcRounds_lt 8 (Nat.xor_lt_two_pow hc hb)

theorem crcByteUpd_inj_state {a b x : Nat} (ha : a < 2 ^ 32) (hb : b < 2 ^ 32)
    (hx : x < 2 ^ 32) (h : crcByteUpd a x = crcByteUpd b x) : a = b :=
  xor_right_cancel
    (crcRounds_inj 8 (Nat.xor_lt_two_pow ha hx) (Nat.xor_lt_two_pow hb hx) h)

theorem crcByteUpd_ne_byte {c x y : Nat} (hc : c < 2 ^ 32) (hx : x < 2 ^ 32)
    (hy : y < 2 ^ 32) (hne : x ≠ y) : crcByteUpd c x ≠ crcByteUpd c y := by
  intro h
  exact hne (xor_left_cancel
    (crcRounds_inj 8 (Nat.xor_lt_two_pow hc hx) (Nat.xor_lt_two_pow hc hy) h))

theorem crcLoop_lt :
    ∀ (l : List Nat) {c : Nat}, c < 2 ^ 32 → (∀ b ∈ l, b < 2 ^ 32) →
      crcLoop c l < 2 ^ 32
  | [], _, hc, _ => hc
  | b :: rest, _, hc, hl =>
    crcLoop_lt rest (crcByteUpd_lt hc (hl b (List.mem_cons_self b rest)))
      (fun y hy => hl y (List.mem_cons_of_mem b hy))

theorem crcLoop_inj :
    ∀ (l : List Nat) {a b : Nat}, a < 2 ^ 32 → b < 2 ^ 32 →
      (∀ x ∈ l, x < 2 ^ 32) → a ≠ b → crcLoop a l ≠ crcLoop b l
  | [], _, _, _, _, _, hne => hne
  | x :: rest, _, _, ha, hb, hl, hne =>
    have hx : x < 2 ^ 32 := hl x (List.mem_cons_self x rest)
    crcLoop_inj rest (crcByteUpd_lt ha hx) (crcByteUpd_lt hb hx)
      (fun y hy => hl y (List.mem_cons_of_mem x hy))
      (fun h => hne (crcByteUpd_inj_state ha hb hx h))

theorem crcLoop_cons (c b : Nat) (l : List Nat) :
    crcLoop c (b :: l) = crcLoop (crcByteUpd c b) l := rfl

theorem crcLoop_set_ne (data : List Nat) (k : Nat) {c b : Nat} (hc : c < 2 ^ 32)
    (hdata : ∀ x ∈ data, x < 2 ^ 32) (hb : b < 2 ^ 32) (hk : k < data.length)
    (hne : b ≠ data.getD k 0) : crcLoop c (data.set k b) ≠ crcLoop c data := by
  induction data generalizing k c with
  | nil => simp at hk
  | cons x rest ih =>
    have hx : x < 2 ^ 32 := hdata x (List.mem_cons_self x rest)
    have hrest : ∀ y ∈ rest, y < 2 ^ 32 := fun y hy => hdata y (List.mem_cons_of_mem x hy)
    cases k with
    | zero =>
      simp only [List.getD_cons_zero] at hne
      rw [List.set_cons_zero, crcLoop_cons, crcLoop_cons]
      exact crcLoop_inj rest (crcByteUpd_lt hc hb) (crcByteUpd_lt hc hx) hrest
        (crcByteUpd_ne_byte hc hb hx hne)
    | succ k =>
      simp only [List.getD_cons_succ] at hne
      rw [List.set_cons_succ, crcLoop_cons, crcLoop_cons]
      have hk2 : k < rest.length := by
        simp only [List.length_cons] at hk
        omega
      exact ih k (crcByteUpd_lt hc hx) hrest hk2 hne

theorem crc32_lt {data : List Nat} {start : Nat} (hstart : start < 2 ^ 32)
    (hdata : ∀ b ∈ data, b < 2 ^ 32) : crc32 data start < 2 ^ 32 :=
  Nat.xor_lt_two_pow
    (crcLoop_lt data (Nat.xor_lt_two_pow hstart (by norm_num)) hdata) (by norm_num)

theorem crc32_set_ne {data : List Nat} {k start b : Nat} (hstart : start < 2 ^ 32)
    (hdata : ∀ x ∈ data, x < 2 ^ 32) (hb : b < 2 ^ 32) (hk : k < data.length)
    (hne : b ≠ data.getD k 0) : crc32 (data.set k b) start ≠ crc32 data start := by
  intro h
  exact crcLoop_set_ne data k (Nat.xor_lt_two_pow hstart (by norm_num)) hdata hb hk hne
    (xor_right_cancel h)

theorem flip_bit_ne {x j : Nat} : x ^^^ 1 <<< j ≠ x := by
  intro h
  have h0 : x ^^^ 1 <<< j = x ^^^ 0 := by rw [h, Nat.xor_zero]
  have h1 : 1 <<< j = 0 := xor_left_cancel h0
  rw [Nat.shiftLeft_eq, Nat.one_mul] at h1
  exact absurd h1 (Nat.pos_iff_ne_zero.mp (Nat.pos_pow_of_pos j (by norm_num)))

theorem flip_bit_lt {x j : Nat} (hx : x < 256) (hj : j < 8) : x ^^^ 1 <<< j < 256 := by
  have h1 : x < 2 ^ 8 := by omega
  have h2 : 1 <<< j < 2 ^ 8 := by
    rw [Nat.shiftLeft_eq, Nat.one_mul]
    exact Nat.pow_lt_pow_right (by norm_num) hj
  have := Nat.xor_lt_two_pow h1 h2
  omega

/-! ## Claim theorems -/

set_option maxRecDepth 40000

/-- C1: the claimed round-trip `reconstruct(filter(raw, [f], stride), stride)
== raw` fails on the code.  For the raw RGBA buffer `[1,0,0,0]` (one row,
length a positive multiple of stride 4) under the uniform Sub filter
sequence `[1]`, filtering then reconstructing yields `[1,255,0,0] ≠ raw`:
`Reconstructor.filter` samples the `a` neighbor one byte to the left while
`Reconstructor.reconstruct` (at `bytes_per_pixel = 4`) samples it four bytes
to the left, so Sub, Average and Paeth rows do not invert.  The same
counterexample refutes the mixed-filter-sequence round-trip, which
quantifies over all sequences including `[1]`. -/
theorem C1_roundtrip_fails_on_sub_filter :
    Decoder.Reconstructor.filter [1, 0, 0, 0] [1] 4 = .ok [1, 1, 255, 0, 0, 1] ∧
    Decoder.Reconstructor.reconstruct [1, 1, 255, 0, 0, 1] 4 4 = .ok [1, 255, 0, 0] ∧
    ([1, 255, 0, 0] : List Nat) ≠ [1, 0, 0, 0] :=
  ⟨rfl, rfl, by decide⟩

/-- C2: the encode-time neighbor window deviates from the claimed
`a`/`b`/`c` rule in both samplers.  With stride 4 and source rows
`[1,2,3,4]` and `[5,6,7,8]`, positioned at row 1 column 0 (filtered data of
length 6), `square.py`'s `Square.next_filter_square` returns `b = 0`
although the byte directly above is `1` (it reads `bytes_per_pixel` rows
up, not one row up); and at row 0 column 1 (filtered data `[1, 77]`),
`png_decoder.py`'s `Square.filter_next_square` returns `a = 1`, the byte
one position left, although the claim requires `a = 0` for column offsets
below 4. -/
theorem C2_neighbor_window_mismatch :
    SquareMod.next_filter_square [1, 2, 3, 4, 5, 6, 7, 8] [0, 0, 0, 0, 0, 2] 4 4
        = some ⟨5, 0, 0, 0⟩ ∧
    (⟨5, 0, 0, 0⟩ : Square) ≠ ⟨5, 0, 1, 0⟩ ∧
    Decoder.filter_next_square [1, 2, 3, 4] [1, 77] 4 = some ⟨2, 1, 0, 0⟩ ∧
    (⟨2, 1, 0, 0⟩ : Square) ≠ ⟨2, 0, 0, 0⟩ :=
  ⟨rfl, by decide, rfl, by decide⟩

/-- C3: the encoder's per-row filter selection does not score candidates
against the true previous raw row.  For the 2×2 all-`255` RGBA image, the
selector described by the claim (embedded as `specBestFilters`) picks Up
(score 0) for row 1 and returns `[1, 2]`, but `best_filters` returns
`[1, 1]`: its scoring windows read `b` and `c` as 0 for every byte (the
`next_filter_square` line offsets `line_offset - bytes_per_pixel` are
negative inside the two-row window), so the previous row never influences a
score. -/
theorem C3_filter_selection_ignores_previous_row :
    Encoder.best_filters 2 (List.replicate 4 [255, 255, 255, 255]) = [1, 1] ∧
    specBestFilters 2 (List.replicate 4 [255, 255, 255, 255]) = [1, 2] ∧
    Encoder.best_filters 2 (List.replicate 4 [255, 255, 255, 255])
      ≠ specBestFilters 2 (List.replicate 4 [255, 255, 255, 255]) := by
  refine ⟨rfl, rfl, ?_⟩
  intro h
  rw [show Encoder.best_filters 2 (List.replicate 4 [255, 255, 255, 255]) = [1, 1] from rfl,
    show specBestFilters 2 (List.replicate 4 [255, 255, 255, 255]) = [1, 2] from rfl] at h
  simp at h

/-- C4: `paeth_predictor` computes exactly the claimed selection with
`p = a + b - c`, `pa = |p - a|`, `pb = |p - b|`, `pc = |p - c|`: it returns
`a` when `pa ≤ pb ∧ pa ≤ pc`, else `b` when `pb ≤ pc`, else `c` (first
conjunct), and consequently always returns one of the three neighbors whose
distance to `p` is minimal, with ties favoring `a` over `b` over `c`
(remaining conjuncts). -/
theorem C4_paeth_predictor_spec (a b c : Int) :
    Filters.paeth_predictor a b c
        = (if |(a + b - c) - a| ≤ |(a + b - c) - b| ∧ |(a + b - c) - a| ≤ |(a + b - c) - c|
           then a else if |(a + b - c) - b| ≤ |(a + b - c) - c| then b else c) ∧
    (Filters.paeth_predictor a b c = a ∨ Filters.paeth_predictor a b c = b ∨
      Filters.paeth_predictor a b c = c) ∧
    |(a + b - c) - Filters.paeth_predictor a b c| ≤ |(a + b - c) - a| ∧
    |(a + b - c) - Filters.paeth_predictor a b c| ≤ |(a + b - c) - b| ∧
    |(a + b - c) - Filters.paeth_predictor a b c| ≤ |(a + b - c) - c| := by
  simp only [Filters.paeth_predictor]
  split_ifs with h1 h2
  · exact ⟨trivial, Or.inl rfl, le_refl _, h1.1, h1.2⟩
  · have hba : |(a + b - c) - b| ≤ |(a + b - c) - a| := by
      rcases not_and_or.mp h1 with h | h
      · linarith [not_le.mp h]
      · linarith [not_le.mp h]
    exact ⟨trivial, Or.inr (Or.inl rfl), hba, le_refl _, h2⟩
  · have hcb : |(a + b - c) - c| ≤ |(a + b - c) - b| := le_of_lt (not_le.mp h2)
    have hca : |(a + b - c) - c| ≤ |(a + b - c) - a| := by
      rcases not_and_or.mp h1 with h | h
      · linarith [not_le.mp h]
      · linarith [not_le.mp h]
    exact ⟨trivial, Or.inr (Or.inr rfl), hca, hcb, le_refl _⟩

/-- C5: merging three contiguous IDAT chunks drops the third.  On the chunk
list `[IHDR, IDAT "A", IDAT "B", IDAT "C", IEND]` with the first IDAT at
index 1, `_combine_IDAT_data` leaves a single IDAT whose payload is
`"AB"`, length 2, crc recomputed over `"AB"` — not the concatenation
`"ABC"` of all three payloads: after the first combine the loop reassigns
`previous_chunk` to the chunk it just removed, so `"C"` is absorbed into
the discarded `"B"` object and lost. -/
theorem C5_idat_merge_drops_third_chunk :
    Decoder.combine_IDAT_data
        [Chunk.mk 13 IHDR_TYPE [9] 0, Chunk.mk 1 IDAT_TYPE [65] 0,
         Chunk.mk 1 IDAT_TYPE [66] 0, Chunk.mk 1 IDAT_TYPE [67] 0,
         Chunk.mk 0 IEND_TYPE [] 0] 1
      = [Chunk.mk 13 IHDR_TYPE [9] 0,
         Chunk.mk 2 IDAT_TYPE [65, 66] (crc32 [65, 66] (crc32 IDAT_TYPE 0)),
         Chunk.mk 0 IEND_TYPE [] 0] ∧
    ([65, 66] : List Nat) ≠ [65] ++ [66] ++ [67] :=
  ⟨rfl, by decide⟩

/-- C6: the IDAT chunking of the compressed payload violates the claim.
For a 3-byte deflated payload the single produced chunk carries `[1, 2]` —
the final byte is dropped by the `arr[i:-1]` slice — so the payloads do not
concatenate back to the input; for a 31-byte payload the second chunk
declares `length = 30` for a 1-byte payload; and `final_datastream` never
prepends the signature: it raises TypeError on `bytes(prepare_ihdr())` for
every input (the bound is also hard-coded to 30, not configurable). -/
theorem C6_idat_chunking_drops_final_byte :
    ((Encoder.compress_to_idat_chunks [1, 2, 3]).map Chunk.chunk_data).flatten = [1, 2] ∧
    ([1, 2] : List Nat) ≠ [1, 2, 3] ∧
    ((Encoder.compress_to_idat_chunks (List.range 31)).getD 1 (Chunk.mk 0 [] [] 0)).length
      = 30 ∧
    ((Encoder.compress_to_idat_chunks (List.range 31)).getD 1
        (Chunk.mk 0 [] [] 0)).chunk_data.length = 1 ∧
    (∀ width height deflated,
      Encoder.final_datastream width height deflated = .error .typeError) :=
  ⟨rfl, by decide, rfl, rfl, fun _ _ _ => rfl⟩

/-- C7 counterexample: the checksum error does not name the expected and
actual crc values.  Two validations with different stored crcs (5 and 9)
and different computed crcs produce the identical error value
`checksumFailed IDAT_TYPE 1` (the `ValueError` message interpolates only
the chunk type and length), so no pair of extraction functions can recover
the expected and actual crcs from the raised error. -/
theorem C7_checksum_error_counterexample :
    Decoder.validate_crc 1 IDAT_TYPE [0] 5 = .error (.checksumFailed IDAT_TYPE 1) ∧
    Decoder.validate_crc 1 IDAT_TYPE [7] 9 = .error (.checksumFailed IDAT_TYPE 1) ∧
    ¬ ∃ expected_of actual_of : Decoder.DecodeError → Nat,
        (∀ e, Decoder.validate_crc 1 IDAT_TYPE [0] 5 = .error e →
          expected_of e = 5 ∧ actual_of e = crc32 [0] (crc32 IDAT_TYPE 0)) ∧
        (∀ e, Decoder.validate_crc 1 IDAT_TYPE [7] 9 = .error e →
          expected_of e = 9 ∧ actual_of e = crc32 [7] (crc32 IDAT_TYPE 0)) := by
  refine ⟨rfl, rfl, ?_⟩
  rintro ⟨f, g, h1, h2⟩
  have a1 := h1 (.checksumFailed IDAT_TYPE 1) rfl
  have a2 := h2 (.checksumFailed IDAT_TYPE 1) rfl
  omega

/-- C7 amended: `_validate_crc` fails with the checksum error carrying the
chunk's tag and length exactly when the stored crc differs from
`CRC32(tag || payload)` (first conjunct), and flipping any single payload
bit — replacing byte `k` by its xor with `1 <<< j` — of a chunk whose
stored crc was correct makes validation fail with that error rather than
silently succeed (second conjunct).  The error names the tag and length but
not the expected and actual crcs. -/
theorem C7_checksum_enforcement_amended (chunk_length : Nat)
    (chunk_type chunk_data : List Nat) (expected_crc k j : Nat)
    (hdata : ∀ b ∈ chunk_data, b < 256) (hty : ∀ b ∈ chunk_type, b < 256)
    (hk : k < chunk_data.length) (hj : j < 8) :
    (Decoder.validate_crc chunk_length chunk_type chunk_data expected_crc
        = .error (.checksumFailed chunk_type chunk_length)
      ↔ expected_crc ≠ crc32 chunk_data (crc32 chunk_type 0)) ∧
    Decoder.validate_crc chunk_length chunk_type
        (chunk_data.set k (chunk_data.getD k 0 ^^^ 1 <<< j))
        (crc32 chunk_data (crc32 chunk_type 0))
      = .error (.checksumFailed chunk_type chunk_length) := by
  have hdata32 : ∀ b ∈ chunk_data, b < 2 ^ 32 :=
    fun b hb => lt_trans (hdata b hb) (by norm_num)
  have hty32 : ∀ b ∈ chunk_type, b < 2 ^ 32 :=
    fun b hb => lt_trans (hty b hb) (by norm_num)
  have hinit : crc32 chunk_type 0 < 2 ^ 32 := crc32_lt (by norm_num) hty32
  constructor
  · simp only [Decoder.validate_crc]
    split_ifs with h
    · simp only [true_iff]
      exact fun he => h (by rw [he])
    · simp only [not_not] at h
      constructor
      · intro he
        exact absurd he (by simp)
      · intro he
        exact absurd h.symm he
  · simp only [Decoder.validate_crc]
    have hgd : chunk_data.getD k 0 ∈ chunk_data := by
      rw [List.getD_eq_getElem chunk_data 0 hk]
      exact List.getElem_mem hk
    have hflip : chunk_data.getD k 0 ^^^ 1 <<< j < 2 ^ 32 := by
      have := flip_bit_lt (hdata _ hgd) hj
      omega
    have hset : ∀ b ∈ chunk_data.set k (chunk_data.getD k 0 ^^^ 1 <<< j), b < 2 ^ 32 := by
      intro b hb
      rcases List.mem_or_eq_of_mem_set hb with h | h
      · exact hdata32 b h
      · rw [h]; exact hflip
    have hne := crc32_set_ne hinit hdata32 hflip hk flip_bit_ne
    rw [if_pos hne]

/-- C7 witness: the amended theorem applied to the 1-byte IDAT payload
`[0]`, flipping bit 0 of byte 0. -/
theorem C7_checksum_enforcement_witness :
    (Decoder.validate_crc 1 IDAT_TYPE [0] 12345 = .error (.checksumFailed IDAT_TYPE 1)
      ↔ 12345 ≠ crc32 [0] (crc32 IDAT_TYPE 0)) ∧
    Decoder.validate_crc 1 IDAT_TYPE ([0].set 0 (([0].getD 0 0) ^^^ 1 <<< 0))
        (crc32 [0] (crc32 IDAT_TYPE 0))
      = .error (.checksumFailed IDAT_TYPE 1) :=
  C7_checksum_enforcement_amended 1 IDAT_TYPE [0] 12345 0 0
    (by decide) (by decide) (by decide) (by decide)

/-- C8 counterexample: the fixed order claimed (signature, then chunk
framing and CRC, then header constraints) is refuted by a stream whose
IHDR chunk stores an invalid crc (0) and declares the unsupported colour
type 2: decode reports the header error, not a checksum error, so the
header constraints are enforced before any chunk CRC is validated. -/
theorem C8_validation_order_counterexample :
    Decoder.PNGDecoder.init
        (PNG_SIGNATURE ++ [0, 0, 0, 13] ++ IHDR_TYPE ++
          [0, 0, 0, 1, 0, 0, 0, 1, 8, 2, 0, 0, 0] ++ [0, 0, 0, 0])
      = .error (.invalidColourType 2) ∧
    Decoder.validate_crc 13 IHDR_TYPE [0, 0, 0, 1, 0, 0, 0, 1, 8, 2, 0, 0, 0] 0
      = .error (.checksumFailed IHDR_TYPE 13) ∧
    (Except.error (.invalidColourType 2) :
        Except Decoder.DecodeError (List Chunk × Option Nat))
      ≠ .error (.checksumFailed IHDR_TYPE 13) :=
  ⟨rfl, rfl, by intro h; exact absurd (Except.error.inj h) (by decide)⟩

/-- C8 amended: the validation order of a decode call is signature check
first, then header constraints (read from the fixed IHDR byte offsets,
without any CRC involvement), then chunk framing with CRC validation; the
`Reconstructor` is only built afterwards, so a malformed header is reported
before any CRC check or pixel-level computation.  A bad signature always
yields the signature error; with a good signature and a parsed header whose
colour type is unsupported (compression and filter method valid), decode
yields the header error whatever the chunk crcs are; with a fully valid
header, any framing/CRC error of the chunker becomes the decode result,
and on chunker success `__init__` finally evaluates `self.chunks[2]`
(line 330), succeeding exactly when at least three chunks survive the IDAT
merge and raising IndexError otherwise. -/
theorem C8_validation_order_amended (data : List Nat) :
    (data.take 8 ≠ PNG_SIGNATURE → Decoder.PNGDecoder.init data = .error .notAPng) ∧
    (∀ hd : IHDRData,
      data.take 8 = PNG_SIGNATURE →
      Decoder.IHDRData.from_bytes (Decoder.extract_IHDR (data.drop 8)).chunk_data = .ok hd →
      hd.compression_method = 0 → hd.filter_method = 0 → hd.colour_type ≠ 6 →
      Decoder.PNGDecoder.init data = .error (.invalidColourType hd.colour_type)) ∧
    (∀ hd : IHDRData, ∀ e : Decoder.DecodeError,
      data.take 8 = PNG_SIGNATURE →
      Decoder.IHDRData.from_bytes (Decoder.extract_IHDR (data.drop 8)).chunk_data = .ok hd →
      Decoder.validate_IHDR hd = .ok () →
      Decoder.chunker (data.drop 8) = .error e →
      Decoder.PNGDecoder.init data = .error e) ∧
    (∀ hd : IHDRData, ∀ chunks : List Chunk, ∀ k : Option Nat,
      data.take 8 = PNG_SIGNATURE →
      Decoder.IHDRData.from_bytes (Decoder.extract_IHDR (data.drop 8)).chunk_data = .ok hd →
      Decoder.validate_IHDR hd = .ok () →
      Decoder.chunker (data.drop 8) = .ok (chunks, k) →
      Decoder.PNGDecoder.init data =
        if 2 < chunks.length then .ok (chunks, k) else .error .indexError) := by
  refine ⟨?_, ?_, ?_, ?_⟩
  · intro h
    unfold Decoder.PNGDecoder.init Decoder.read_from_file
    rw [if_neg h]
  · intro hd hsig hparse hcm hfm hct
    unfold Decoder.PNGDecoder.init Decoder.read_from_file
    rw [if_pos hsig]
    simp only [hparse]
    unfold Decoder.validate_IHDR
    rw [if_neg (by simp [hcm]), if_neg (by simp [hfm]), if_pos hct]
  · intro hd e hsig hparse hvalid hchunk
    unfold Decoder.PNGDecoder.init Decoder.read_from_file
    rw [if_pos hsig]
    simp only [hparse, hvalid, hchunk]
  · intro hd chunks k hsig hparse hvalid hchunk
    unfold Decoder.PNGDecoder.init Decoder.read_from_file
    rw [if_pos hsig]
    simp only [hparse, hvalid, hchunk]

/-- C8 witness: the amended theorem applied to the counterexample stream
(bad stored crc, colour type 2). -/
theorem C8_validation_order_witness :
    Decoder.PNGDecoder.init
        (PNG_SIGNATURE ++ [0, 0, 0, 13] ++ IHDR_TYPE ++
          [0, 0, 0, 1, 0, 0, 0, 1, 8, 2, 0, 0, 0] ++ [0, 0, 0, 0])
      = .error (.invalidColourType 2) :=
  (C8_validation_order_amended
      (PNG_SIGNATURE ++ [0, 0, 0, 13] ++ IHDR_TYPE ++
        [0, 0, 0, 1, 0, 0, 0, 1, 8, 2, 0, 0, 0] ++ [0, 0, 0, 0])).2.1
    ⟨1, 1, 8, 2, 0, 0, 0⟩ rfl rfl rfl rfl (by decide)

/-- C9: the reconstruction-time filter-byte validation is broken in the
code.  `reconstruct_buf` aborts with AttributeError on the first byte of
every nonempty scanline — even with the valid filter byte 0 — because its
range check reads `self.reconstruction_funcs`, an attribute `__init__`
never assigns (and the next line subscripts a function), so the intended
`ValueError` for unknown filter types is unreachable; the static
`reconstruct` does fail on the out-of-range filter byte 5 before
reconstructing the row, but via the uncontrolled IndexError of list
indexing, not the claimed format error. -/
theorem C9_filter_byte_validation_broken :
    Decoder.Reconstructor.reconstruct_buf ⟨4, 1, 4, []⟩ [0, 9, 9, 9, 9]
      = .error .attributeError ∧
    (Except.error PyError.attributeError : Except PyError (List Nat))
      ≠ .error .valueErrorUnknownFilter ∧
    Decoder.Reconstructor.reconstruct [5, 1, 2, 3, 4] 4 4 = .error .indexError ∧
    (Except.error PyError.indexError : Except PyError (List Nat))
      ≠ .error .valueErrorUnknownFilter :=
  ⟨rfl, by intro h; exact absurd (Except.error.inj h) (by decide),
   rfl, by intro h; exact absurd (Except.error.inj h) (by decide)⟩

/-- C10: `I8` is exactly the two's-complement reinterpretation of the low 8
bits of its argument: for every integer `v`, `I8 v` lies in `[-128, 127]`
and is congruent to `v` modulo 256. -/
theorem C10_I8_two_complement (v : Int) :
    -128 ≤ I8 v ∧ I8 v ≤ 127 ∧ I8 v % 256 = v % 256 := by
  simp only [I8]
  split_ifs <;> omega

end PngCodec
